import Mathlib

/-!
Verification of the remote SQL execution engine of the PYCOF repository
(file pycof/sql.py, function remote_execute_sql).

The Python function is shallowly embedded: the classification of the
query type, the optional read of a .sql file, the table defaulting and
validation steps, and the dispatch over the query type are translated
directly from the source. The collaborators that live outside the file
under verification (the SSH tunnel context manager, the database
connector, the cache helper and the file reader) are modelled from the
specification as an abstract backend; every network-visible action is
recorded in an event trace so that resource acquisition and release can
be stated and proved.
-/

/-! ## Python string primitives

The embedding works on the character lists underlying Lean strings, so
that every definition is structurally recursive and can be evaluated by
the kernel. -/

/-- ASCII upper-casing of a string, the embedding of the Python method
`str.upper` for the ASCII inputs used by the engine. -/
def pyUpper (s : String) : String :=
  String.mk (s.data.map Char.toUpper)

/-- ASCII lower-casing of a string, the embedding of `str.lower`. -/
def pyLower (s : String) : String :=
  String.mk (s.data.map Char.toLower)

/-- Replacement of newline characters by spaces, the embedding of the
Python call `.replace(chr(10), chr(32))` used on the SQL text. -/
def replaceNl (s : String) : String :=
  String.mk (s.data.map (fun c => if c = '\n' then ' ' else c))

/-- Helper for the Python containment operator: does `needle` occur as a
contiguous sublist of the argument? -/
def containsAux (needle : List Char) : List Char → Bool
  | [] => needle.isPrefixOf []
  | c :: cs => needle.isPrefixOf (c :: cs) || containsAux needle cs

/-- The embedding of the Python expression `needle in hay` on strings. -/
def pyContains (hay needle : String) : Bool :=
  containsAux needle.data hay.data

/-- Fuel-indexed worker for `str.split` with a non-empty separator
`s0 :: srest`.  The fuel is the length of the list being split, so the
recursion is structural and kernel-evaluable. -/
def splitGoF (s0 : Char) (srest : List Char) : Nat → List Char → List (List Char)
  | _, [] => [[]]
  | 0, l => [l]
  | fuel + 1, c :: cs =>
    if (s0 :: srest).isPrefixOf (c :: cs) then
      [] :: splitGoF s0 srest fuel (cs.drop srest.length)
    else
      match splitGoF s0 srest fuel cs with
      | [] => [[c]]
      | hd :: tl => (c :: hd) :: tl

/-- The embedding of the Python call `s.split(sep)` for a non-empty
separator (the engine only splits on the two literals used in the
source). -/
def pySplit (s sep : String) : List String :=
  match sep.data with
  | [] => [s]
  | c :: cs => (splitGoF c cs s.data.length s.data).map String.mk

/-- The embedding of the Python call `sep.join(l)`. -/
def pyJoin (sep : String) : List String → String
  | [] => ""
  | [x] => x
  | x :: y :: rest => x ++ sep ++ pyJoin sep (y :: rest)

/-- A single quote character, built without a character literal. -/
def quoteChar : String := String.singleton (Char.ofNat 39)

/-- Python `repr` of a string (as it appears when a list of strings is
formatted into an f-string). -/
def pyStrRepr (s : String) : String := quoteChar ++ s ++ quoteChar

/-- Python formatting of a list of strings inside an f-string. -/
def pyListRepr (l : List String) : String :=
  "[" ++ pyJoin ", " (l.map pyStrRepr) ++ "]"

/-! ## Data model -/

/-- Decidable equality for `Except`, needed to evaluate the engine on
concrete inputs. -/
instance {α β : Type} [DecidableEq α] [DecidableEq β] : DecidableEq (Except α β)
  | .error a, .error b =>
    if h : a = b then .isTrue (by rw [h]) else .isFalse (by simp [h])
  | .error _, .ok _ => .isFalse (by simp)
  | .ok _, .error _ => .isFalse (by simp)
  | .ok a, .ok b =>
    if h : a = b then .isTrue (by rw [h]) else .isFalse (by simp [h])

/-- A tabular dataset; the engine never inspects the cells, it only
passes the frame to the insertion helper, so rows of strings suffice. -/
structure DataFrame where
  rows : List (List String)
deriving DecidableEq

/-- The first positional argument of `remote_execute_sql`: either a SQL
string (possibly a path to a .sql file) or a pandas DataFrame. -/
inductive SqlArg
  | str (s : String)
  | df (d : DataFrame)
deriving DecidableEq

/-- The `data` argument: the default empty dict, or a DataFrame. -/
inductive DataArg
  | dict
  | df (d : DataFrame)
deriving DecidableEq

/-- Whether the `data` argument is a tabular dataset, the embedding of
the Python test `type(data) == pd.DataFrame`. -/
def DataArg.isTabular : DataArg → Bool
  | .dict => false
  | .df _ => true

/-- The Python exceptions that `remote_execute_sql` and its helpers can
raise.  `errValue` and `errSyn` carry the message built by the source;
`errIndex` is the IndexError of the list subscript in the table
extraction; `errAttr` stands for the failures of calling string methods
on a DataFrame; `errConn` is a tunnel acquisition failure and
`errBackend` an error raised by the database driver mid-execution. -/
inductive PyErr
  | errValue (msg : String)
  | errSyn (msg : String)
  | errAssert (msg : String)
  | errAttr
  | errIndex
  | errConn
  | errBackend (msg : String)
deriving DecidableEq

/-- The closed variant of operation kinds named by the specification. -/
inductive OperationKind
  | Select | Insert | Delete | Copy | Unload | Update | Create | Grant
deriving DecidableEq

/-- Events observable at the boundary between the engine and its
collaborators, listed in the order they are appended to the trace. -/
inductive Event
  | credentialsResolved
  | tunnelOpen
  | tunnelClose
  | connOpen
  | connClose
  | execSql (q : String)
  | insertData (d : DataArg) (table : String)
  | cacheRead
deriving DecidableEq

/-- Modelled from the spec: the collaborators of the engine that live in
other modules of the repository (the SSH tunnel of `SSHTunnel`, the
connector it exposes, `_insert_data`, `_cache`).  `openTunnel` tells
whether tunnel acquisition succeeds; the three run functions give the
backend outcome of a read, an insertion and a command execution; and
`cacheHit` is the cache lookup, returning a stored frame when a fresh
entry exists. -/
structure Backend where
  openTunnel : Bool
  runSelect : String → Except String DataFrame
  runInsert : DataArg → String → Except String Unit
  runExec : String → Except String Unit
  cacheHit : String → Option DataFrame

/-- The keyword arguments of `remote_execute_sql` that the classification
and dispatch read, with the default values of the source. -/
structure Call where
  sql_query : SqlArg := .str ""
  query_type : String := ""
  table : String := ""
  data : DataArg := .dict
  cache : Bool := false
deriving DecidableEq

/-- A trace of boundary events. -/
abbrev Trace := List Event

/-- The value returned by the call: the frame read by a SELECT, or
nothing (Python returns None on the insertion and command paths). -/
abbrev Ret := Option DataFrame

/-! ## The engine, translated from pycof/sql.py -/

/-- The list bound to `all_query_types` at line 97 of sql.py. -/
def all_query_types : List String :=
  ["SELECT", "INSERT", "DELETE", "COPY", "UNLOAD", "UPDATE", "CREATE", "GRANT"]

/-- The message of the ValueError raised at line 122 of sql.py. -/
def allowedQueriesMsg (query_type : String) : String :=
  "Your query_type value is not correct, allowed values are "
    ++ pyJoin ", " all_query_types ++ ". Got " ++ query_type

/-- The message of the ValueError raised at line 181 of sql.py. -/
def unknownTypeMsg : String :=
  "Unknown query_type, should be as: " ++ pyListRepr all_query_types

/-- The message of the SyntaxError raised at line 151 of sql.py. -/
def tableMismatchSelectMsg : String :=
  "Argument table does not match with SQL statement"

/-- The message of the ValueError raised at line 179 of sql.py. -/
def tableMismatchWriteMsg : String :=
  "Table does not match with SQL query"

/-- The message of the failed assertion at line 131 of sql.py. -/
def fileReadMsg : String :=
  "Could not read your SQL file properly. Please make sure your file is saved or check your path."

/-- Lines 99 to 122 of sql.py: determination of `sql_type`.  The user
value is used verbatim when non-empty; a DataFrame in `data` or in
`sql_query` forces INSERT (in the latter case the frame becomes the
data payload); otherwise the upper-cased text is searched for the
keywords in the order of the source, SELECT is the fallback for a
non-empty text, and the empty call raises the ValueError of line 122. -/
def classifySqlType (sql_query : SqlArg) (query_type : String) (data : DataArg) :
    Except PyErr (String × DataArg) :=
  if query_type ≠ "" then .ok (query_type, data)
  else if data.isTabular then .ok ("INSERT", data)
  else
    match sql_query with
    | .df d => .ok ("INSERT", .df d)
    | .str s =>
      if pyContains (pyUpper s) "UNLOAD " then .ok ("UNLOAD", data)
      else if pyContains (pyUpper s) "COPY " then .ok ("COPY", data)
      else if pyContains (pyUpper s) "UPDATE " then .ok ("UPDATE", data)
      else if s ≠ "" then .ok ("SELECT", data)
      else .error (.errValue (allowedQueriesMsg query_type))

/-- Lines 127 to 131 of sql.py: when the type is not INSERT and the
query string mentions `.sql`, the file is read and its text replaces the
query; an empty read fails the assertion of line 131.  The file system
is a function from paths to contents (Modelled from the spec: the
collaborator `f_read` of pycof.data reads the full text of the file, an
empty string standing for an unreadable path). -/
def processSql (fs : String → String) (sql_type : String) (sql_query : SqlArg) :
    Except PyErr SqlArg :=
  if sql_type ≠ "INSERT" then
    match sql_query with
    | .df _ => .error .errAttr
    | .str s =>
      if (s != "") && pyContains (pyLower s) ".sql" then
        if fs s ≠ "" then .ok (.str (fs s))
        else .error (.errAssert fileReadMsg)
      else .ok (.str s)
  else .ok sql_query

/-- Line 147 of sql.py: the fallback table extraction
`sql_query.upper().replace(nl, space).split(sep)[1].split(space)[0]`
with `sep` the five characters FROM-space.  The subscript `[1]` raises
IndexError when the separator does not occur. -/
def extractTable (s : String) : Except PyErr String :=
  match pySplit (replaceNl (pyUpper s)) "FROM " with
  | _ :: seg :: _ => .ok ((pySplit seg " ").headD "")
  | _ => .error .errIndex

/-- Lines 145 to 151 of sql.py: for the exact string SELECT (the
comparison of line 145 is case-sensitive), an empty table argument is
filled by `extractTable`, and an explicit table must occur
case-insensitively in the SQL text, otherwise the SyntaxError of line
151 is raised.  Every other type keeps the table argument unchanged. -/
def tableStep (sql_type : String) (sql_query : SqlArg) (table : String) :
    Except PyErr String :=
  if sql_type = "SELECT" then
    match sql_query with
    | .df _ => .error .errAttr
    | .str s =>
      if table = "" then extractTable s
      else if (sql_type == "SELECT") && pyContains (pyUpper s) (pyUpper table) then .ok table
      else .error (.errSyn tableMismatchSelectMsg)
  else .ok table

/-- The list of line 172 of sql.py. -/
def writeKindsList : List String :=
  ["CREATE", "GRANT", "DELETE", "COPY", "UNLOAD", "UPDATE"]

/-- Lines 155 to 163 of sql.py, the SELECT branch: with caching the
`_cache` helper is consulted (Modelled from the spec: a fresh cache
entry short-circuits the backend, a miss executes the query against the
live connection); without caching a connection is opened, the query is
read, and the connection is closed.  A driver error propagates before
the connection close of line 162 is reached. -/
def selectExec (B : Backend) (cache : Bool) (s : String) : Trace × Except PyErr Ret :=
  if cache then
    match B.cacheHit s with
    | some d => ([.cacheRead], .ok (some d))
    | none =>
      match B.runSelect s with
      | .ok d => ([.connOpen, .execSql s, .connClose], .ok (some d))
      | .error m => ([.connOpen, .execSql s], .error (.errBackend m))
  else
    match B.runSelect s with
    | .ok d => ([.connOpen, .execSql s, .connClose], .ok (some d))
    | .error m => ([.connOpen, .execSql s], .error (.errBackend m))

/-- Lines 153 to 184 of sql.py: the dispatch on `sql_type.upper()`.
SELECT returns the frame that was read; INSERT loads the data through
`_insert_data` and closes the connection at line 184; the six command
kinds re-check the table against the SQL text and execute the statement;
any other value raises the ValueError of line 181. -/
def dispatchExec (B : Backend) (cache : Bool) (sql_type : String) (sql_query : SqlArg)
    (table : String) (data : DataArg) : Trace × Except PyErr Ret :=
  if pyUpper sql_type = "SELECT" then
    match sql_query with
    | .df _ => ([], .error .errAttr)
    | .str s => selectExec B cache s
  else if pyUpper sql_type = "INSERT" then
    match B.runInsert data table with
    | .ok _ => ([.connOpen, .insertData data table, .connClose], .ok none)
    | .error m => ([.connOpen, .insertData data table], .error (.errBackend m))
  else if writeKindsList.contains (pyUpper sql_type) then
    match sql_query with
    | .df _ => ([], .error .errAttr)
    | .str s =>
      if pyContains (pyUpper s) (pyUpper table) then
        match B.runExec s with
        | .ok _ => ([.connOpen, .execSql s, .connClose], .ok none)
        | .error m => ([.connOpen, .execSql s], .error (.errBackend m))
      else ([], .error (.errValue tableMismatchWriteMsg))
  else ([], .error (.errValue unknownTypeMsg))

/-- The body of the `with SSHTunnel(...)` block of lines 139 to 184:
the table defaulting step followed by the dispatch. -/
def tunnelBody (B : Backend) (cache : Bool) (sql_type : String) (sql_query : SqlArg)
    (table : String) (data : DataArg) : Trace × Except PyErr Ret :=
  match tableStep sql_type sql_query table with
  | .error e => ([], .error e)
  | .ok tbl => dispatchExec B cache sql_type sql_query tbl data

/-- The whole of `remote_execute_sql` (lines 95 to 184 of sql.py):
classification, optional file read, credential resolution, and the
tunnel-scoped execution block.  (Modelled from the spec: the SSHTunnel
context manager of pycof.sqlhelper releases the tunnel on every exit of
the block, so the close event brackets the body trace whether the body
returns or raises; a failed acquisition raises before the block runs.) -/
def remote_execute_sql (B : Backend) (fs : String → String) (c : Call) :
    Trace × Except PyErr Ret :=
  match classifySqlType c.sql_query c.query_type c.data with
  | .error e => ([], .error e)
  | .ok (sql_type, data) =>
    match processSql fs sql_type c.sql_query with
    | .error e => ([], .error e)
    | .ok q =>
      if B.openTunnel then
        let r := tunnelBody B c.cache sql_type q c.table data
        (Event.credentialsResolved :: Event.tunnelOpen :: (r.1 ++ [Event.tunnelClose]), r.2)
      else ([Event.credentialsResolved], .error .errConn)

/-! ## Concrete instances used to evaluate the engine -/

/-- A one-cell frame used as the result of successful reads. -/
def df0 : DataFrame := ⟨[["1"]]⟩

/-- A backend on which every collaborator succeeds and the cache is
always cold. -/
def okBackend : Backend :=
  { openTunnel := true
    runSelect := fun _ => .ok df0
    runInsert := fun _ _ => .ok ()
    runExec := fun _ => .ok ()
    cacheHit := fun _ => none }

/-- An empty file system: every path reads as the empty string. -/
def noFs : String → String := fun _ => ""

/-- A plain SELECT call with every other argument at its default. -/
def c1call : Call := { sql_query := .str "SELECT A FROM T" }

/-- Contents of the .sql file used to probe the order of the file read
and the classification: the text of an UNLOAD statement. -/
def c6content : String := "UNLOAD TO X FROM T"

/-- A file system holding one .sql file whose text is `c6content`. -/
def c6fs : String → String := fun p => if p = "q.sql" then c6content else ""

/-- A call whose first argument is the path of that file. -/
def c6call : Call := { sql_query := .str "q.sql" }

/-- A SELECT statement naming the table ORDERS. -/
def c7sql : String := "SELECT A FROM ORDERS"

/-- The same call with `query_type` upper-cased and a table argument
that does not occur in the SQL text. -/
def c7callU : Call := { sql_query := .str c7sql, query_type := "SELECT", table := "CUSTOMERS" }

/-- The same call with `query_type` lower-cased. -/
def c7callL : Call := { sql_query := .str c7sql, query_type := "select", table := "CUSTOMERS" }

/-- Modelled from the wording of claim C9 and of section 4.1 of the
spec, for comparison with the source extraction `extractTable`: the
first whitespace-delimited token following the first occurrence of the
FROM separator in the upper-cased text with newlines replaced by
spaces; `none` when the separator does not occur. -/
def claimTableSpec (s : String) : Option String :=
  let t := replaceNl (pyUpper s)
  if pyContains t "FROM " then
    let pre := (pySplit t "FROM ").headD ""
    let tail := t.data.drop (pre.length + 5)
    some (String.mk ((tail.dropWhile Char.isWhitespace).takeWhile (fun c => !c.isWhitespace)))
  else none

/-! ## Theorems -/

/-- C2: with a non-empty `query_type`, the assigned type is the user
value itself, whatever the SQL argument and the data payload are; the
equation shows in one stroke that the result neither reads the text nor
the dataset. -/
theorem c2_explicit_query_type_wins (sq : SqlArg) (qt : String) (d : DataArg)
    (h : qt ≠ "") : classifySqlType sq qt d = .ok (qt, d) := by
  unfold classifySqlType
  simp [h]

/-- Witness for C2: an explicit INSERT with the empty default dataset
still classifies as INSERT. -/
theorem c2_witness :
    ("INSERT" : String) ≠ "" ∧
      classifySqlType (.str "") "INSERT" .dict = .ok ("INSERT", .dict) :=
  ⟨by decide, c2_explicit_query_type_wins (.str "") "INSERT" .dict (by decide)⟩

/-- C3: with empty `query_type`, a non-empty string query and a
non-tabular payload, the keywords are tried on the upper-cased text in
the order UNLOAD, COPY, UPDATE, the first match wins, and SELECT is the
fallback when none matches. -/
theorem c3_keyword_order (s : String) (d : DataArg)
    (hs : s ≠ "") (hd : d.isTabular = false) :
    (pyContains (pyUpper s) "UNLOAD " = true →
        classifySqlType (.str s) "" d = .ok ("UNLOAD", d)) ∧
    (pyContains (pyUpper s) "UNLOAD " = false →
        pyContains (pyUpper s) "COPY " = true →
        classifySqlType (.str s) "" d = .ok ("COPY", d)) ∧
    (pyContains (pyUpper s) "UNLOAD " = false →
        pyContains (pyUpper s) "COPY " = false →
        pyContains (pyUpper s) "UPDATE " = true →
        classifySqlType (.str s) "" d = .ok ("UPDATE", d)) ∧
    (pyContains (pyUpper s) "UNLOAD " = false →
        pyContains (pyUpper s) "COPY " = false →
        pyContains (pyUpper s) "UPDATE " = false →
        classifySqlType (.str s) "" d = .ok ("SELECT", d)) := by
  unfold classifySqlType
  refine ⟨fun h1 => ?_, fun h1 h2 => ?_, fun h1 h2 h3 => ?_, fun h1 h2 h3 => ?_⟩ <;>
    simp [hd, hs, h1, *]

/-- Witness for C3: a lower-cased unload statement classifies as
UNLOAD. -/
theorem c3_witness :
    ("unload x to y" : String) ≠ "" ∧ DataArg.isTabular .dict = false ∧
      pyContains (pyUpper "unload x to y") "UNLOAD " = true ∧
      classifySqlType (.str "unload x to y") "" .dict = .ok ("UNLOAD", .dict) :=
  ⟨by decide, by decide, by decide,
    (c3_keyword_order "unload x to y" .dict (by decide) (by decide)).1 (by decide)⟩

/-- C8: the empty call (empty query, empty type, non-tabular payload)
raises the ValueError of line 122 before anything else happens (the
trace is empty), and the message mentions each of the eight allowed
kinds; nothing silently defaults. -/
theorem c8_empty_call_rejected (d : DataArg) (B : Backend) (fs : String → String)
    (t : String) (hd : d.isTabular = false) :
    classifySqlType (.str "") "" d = .error (.errValue (allowedQueriesMsg "")) ∧
    remote_execute_sql B fs { sql_query := .str "", query_type := "", table := t, data := d } =
      ([], .error (.errValue (allowedQueriesMsg ""))) ∧
    all_query_types = ["SELECT", "INSERT", "DELETE", "COPY", "UNLOAD", "UPDATE", "CREATE", "GRANT"] ∧
    (all_query_types.all fun k => pyContains (allowedQueriesMsg "") k) = true := by
  have h1 : pyContains (pyUpper "") "UNLOAD " = false := by decide
  have h2 : pyContains (pyUpper "") "COPY " = false := by decide
  have h3 : pyContains (pyUpper "") "UPDATE " = false := by decide
  have hcl : classifySqlType (.str "") "" d = .error (.errValue (allowedQueriesMsg "")) := by
    unfold classifySqlType
    simp [hd, h1, h2, h3]
  refine ⟨hcl, ?_, by decide, by decide⟩
  unfold remote_execute_sql
  simp [hcl]

/-- Witness for C8 at the default arguments. -/
theorem c8_witness :
    DataArg.isTabular .dict = false ∧
      (classifySqlType (.str "") "" .dict = .error (.errValue (allowedQueriesMsg "")) ∧
        remote_execute_sql okBackend noFs
            { sql_query := .str "", query_type := "", table := "", data := .dict } =
          ([], .error (.errValue (allowedQueriesMsg ""))) ∧
        all_query_types = ["SELECT", "INSERT", "DELETE", "COPY", "UNLOAD", "UPDATE", "CREATE", "GRANT"] ∧
        (all_query_types.all fun k => pyContains (allowedQueriesMsg "") k) = true) :=
  ⟨by decide, c8_empty_call_rejected .dict okBackend noFs "" (by decide)⟩

/-- C10: a DataFrame passed as the first positional argument, with an
empty `query_type` and a non-tabular `data` argument, classifies as
INSERT with that frame as the data payload, and the call loads exactly
that frame into the named table. -/
theorem c10_frame_as_first_argument (dfr : DataFrame) (d : DataArg) (tbl : String)
    (B : Backend) (fs : String → String)
    (hd : d.isTabular = false) (ho : B.openTunnel = true)
    (hins : B.runInsert (.df dfr) tbl = .ok ()) :
    classifySqlType (.df dfr) "" d = .ok ("INSERT", .df dfr) ∧
    remote_execute_sql B fs { sql_query := .df dfr, query_type := "", table := tbl, data := d } =
      ([.credentialsResolved, .tunnelOpen, .connOpen, .insertData (.df dfr) tbl,
          .connClose, .tunnelClose], .ok none) := by
  have hcl : classifySqlType (.df dfr) "" d = .ok ("INSERT", .df dfr) := by
    unfold classifySqlType
    simp [hd]
  refine ⟨hcl, ?_⟩
  unfold remote_execute_sql
  simp only [hcl]
  unfold processSql tunnelBody tableStep dispatchExec
  have e1 : ("INSERT" : String) ≠ "INSERT" ↔ False := by simp
  have e2 : ("INSERT" : String) = "SELECT" ↔ False := by decide
  have e3 : pyUpper "INSERT" = "SELECT" ↔ False := by decide
  have e4 : pyUpper "INSERT" = "INSERT" := by decide
  simp [e2, e3, e4, ho, hins]

/-- Witness for C10: a concrete frame inserted into table T. -/
theorem c10_witness :
    classifySqlType (.df df0) "" .dict = .ok ("INSERT", .df df0) ∧
      remote_execute_sql okBackend noFs
          { sql_query := .df df0, query_type := "", table := "T", data := .dict } =
        ([.credentialsResolved, .tunnelOpen, .connOpen, .insertData (.df df0) "T",
            .connClose, .tunnelClose], .ok none) :=
  c10_frame_as_first_argument df0 .dict "T" okBackend noFs (by decide) rfl rfl

/-- The execution block never emits tunnel events itself: those come
only from the scoped wrapper. -/
theorem auxTunnelBodyNoTunnelEvents (B : Backend) (ch : Bool) (st : String)
    (q : SqlArg) (tbl : String) (d : DataArg) :
    Event.tunnelOpen ∉ (tunnelBody B ch st q tbl d).1 ∧
      Event.tunnelClose ∉ (tunnelBody B ch st q tbl d).1 := by
  cases h : tableStep st q tbl with
  | error e => simp [tunnelBody, h]
  | ok tbl2 =>
    simp only [tunnelBody, h]
    unfold dispatchExec selectExec
    repeat' split
    all_goals simp

/-- The trace of a call has one of three shapes: empty (an error before
credentials), credentials only (tunnel acquisition failed), or a body
trace without tunnel events bracketed by exactly one open and one
close. -/
theorem auxRemoteShape (B : Backend) (fs : String → String) (c : Call) :
    (remote_execute_sql B fs c).1 = [] ∨
    (remote_execute_sql B fs c).1 = [Event.credentialsResolved] ∨
    ∃ t : Trace, Event.tunnelOpen ∉ t ∧ Event.tunnelClose ∉ t ∧
      (remote_execute_sql B fs c).1 =
        Event.credentialsResolved :: Event.tunnelOpen :: (t ++ [Event.tunnelClose]) := by
  unfold remote_execute_sql
  cases hcl : classifySqlType c.sql_query c.query_type c.data with
  | error e => left; rfl
  | ok p =>
    obtain ⟨st, d⟩ := p
    cases hp : processSql fs st c.sql_query with
    | error e => left; simp [hp]
    | ok q =>
      by_cases ho : B.openTunnel
      · right; right
        obtain ⟨h1, h2⟩ := auxTunnelBodyNoTunnelEvents B c.cache st q c.table d
        exact ⟨(tunnelBody B c.cache st q c.table d).1, h1, h2, by simp [hp, ho]⟩
      · right; left; simp [hp, ho]

/-- C1: whenever a call acquires the tunnel (an open event is in its
trace), the trace carries exactly one close and one open, and the close
is the very last event — the session is released exactly once, before
the call returns or re-raises, on success, backend error and programming
error alike (the theorem quantifies over every backend outcome). -/
theorem c1_tunnel_released_once (B : Backend) (fs : String → String) (c : Call)
    (h : Event.tunnelOpen ∈ (remote_execute_sql B fs c).1) :
    (remote_execute_sql B fs c).1.count Event.tunnelClose = 1 ∧
    (remote_execute_sql B fs c).1.count Event.tunnelOpen = 1 ∧
    (remote_execute_sql B fs c).1.getLast? = some Event.tunnelClose := by
  rcases auxRemoteShape B fs c with hs | hs | ⟨t, h1, h2, hs⟩
  · rw [hs] at h; simp at h
  · rw [hs] at h; simp at h
  · rw [hs]
    refine ⟨?_, ?_, ?_⟩
    · simp [List.count_cons, List.count_append, List.count_eq_zero.mpr h2]
    · simp [List.count_cons, List.count_append, List.count_eq_zero.mpr h1]
    · have hr : Event.credentialsResolved :: Event.tunnelOpen :: (t ++ [Event.tunnelClose]) =
          (Event.credentialsResolved :: Event.tunnelOpen :: t) ++ [Event.tunnelClose] := by
        simp
      rw [hr, List.getLast?_concat]

/-- Witness for C1: a concrete SELECT call opens the tunnel and its
trace closes it exactly once, as the last event. -/
theorem c1_witness :
    Event.tunnelOpen ∈ (remote_execute_sql okBackend noFs c1call).1 ∧
      ((remote_execute_sql okBackend noFs c1call).1.count Event.tunnelClose = 1 ∧
        (remote_execute_sql okBackend noFs c1call).1.count Event.tunnelOpen = 1 ∧
        (remote_execute_sql okBackend noFs c1call).1.getLast? = some Event.tunnelClose) :=
  ⟨by decide, c1_tunnel_released_once okBackend noFs c1call (by decide)⟩

/-- C4 amended: for a call whose resolved type upper-cases to one of the
six command kinds (CREATE, GRANT, DELETE, COPY, UNLOAD, UPDATE), and
for a call whose resolved type is the exact upper-case string SELECT
with an explicit table argument, the table must occur
(case-insensitively) in the SQL text: otherwise the call fails with the
respective table-mismatch error and no statement reaches the backend,
and when it does occur the call proceeds and does not raise that error.
The restriction of the Select conjunct to the exact string SELECT is
forced by the case-sensitive comparison of line 145: a Select call
whose `query_type` is spelt in any other casing skips the check (see
the counterexample). -/
theorem c4_table_guard (B : Backend) (fs : String → String) (c : Call)
    (st : String) (d : DataArg) (s : String)
    (ho : B.openTunnel = true)
    (hcl : classifySqlType c.sql_query c.query_type c.data = .ok (st, d))
    (hp : processSql fs st c.sql_query = .ok (.str s)) :
    (writeKindsList.contains (pyUpper st) = true →
      ((pyContains (pyUpper s) (pyUpper c.table) = false →
          remote_execute_sql B fs c =
            ([.credentialsResolved, .tunnelOpen, .tunnelClose],
              .error (.errValue tableMismatchWriteMsg))) ∧
       (pyContains (pyUpper s) (pyUpper c.table) = true →
          Event.execSql s ∈ (remote_execute_sql B fs c).1 ∧
          (remote_execute_sql B fs c).2 ≠ .error (.errValue tableMismatchWriteMsg)))) ∧
    (st = "SELECT" → c.table ≠ "" →
      ((pyContains (pyUpper s) (pyUpper c.table) = false →
          remote_execute_sql B fs c =
            ([.credentialsResolved, .tunnelOpen, .tunnelClose],
              .error (.errSyn tableMismatchSelectMsg))) ∧
       (pyContains (pyUpper s) (pyUpper c.table) = true →
          (remote_execute_sql B fs c).2 ≠ .error (.errSyn tableMismatchSelectMsg) ∧
          (Event.execSql s ∈ (remote_execute_sql B fs c).1 ∨
            ∃ dd, (remote_execute_sql B fs c).2 = .ok (some dd))))) := by
  have hrem : remote_execute_sql B fs c =
      (Event.credentialsResolved :: Event.tunnelOpen ::
          ((tunnelBody B c.cache st (.str s) c.table d).1 ++ [Event.tunnelClose]),
        (tunnelBody B c.cache st (.str s) c.table d).2) := by
    unfold remote_execute_sql
    simp [hcl, hp, ho]
  constructor
  · intro hw
    have hne : st ≠ "SELECT" := by
      intro he
      rw [he] at hw
      revert hw
      decide
    have hSel : pyUpper st ≠ "SELECT" := by
      intro he
      rw [he] at hw
      revert hw
      decide
    have hIns : pyUpper st ≠ "INSERT" := by
      intro he
      rw [he] at hw
      revert hw
      decide
    have htab : tableStep st (.str s) c.table = .ok c.table := by
      unfold tableStep
      simp [hne]
    have hwmem : pyUpper st ∈ writeKindsList := by simpa using hw
    constructor
    · intro hcont
      rw [hrem]
      have hbody : tunnelBody B c.cache st (.str s) c.table d =
          ([], .error (.errValue tableMismatchWriteMsg)) := by
        unfold tunnelBody dispatchExec
        simp [htab, hSel, hIns, hw, hwmem, hcont]
      rw [hbody]
      simp
    · intro hcont
      rw [hrem]
      cases hre : B.runExec s with
      | ok u =>
        have hbody : tunnelBody B c.cache st (.str s) c.table d =
            ([.connOpen, .execSql s, .connClose], .ok none) := by
          unfold tunnelBody dispatchExec
          simp [htab, hSel, hIns, hw, hwmem, hcont, hre]
        rw [hbody]
        simp
      | error m =>
        have hbody : tunnelBody B c.cache st (.str s) c.table d =
            ([.connOpen, .execSql s], .error (.errBackend m)) := by
          unfold tunnelBody dispatchExec
          simp [htab, hSel, hIns, hw, hwmem, hcont, hre]
        rw [hbody]
        simp
  · intro hst hTab
    subst hst
    constructor
    · intro hcont
      rw [hrem]
      have hbody : tunnelBody B c.cache "SELECT" (.str s) c.table d =
          ([], .error (.errSyn tableMismatchSelectMsg)) := by
        unfold tunnelBody tableStep
        simp [hTab, hcont]
      rw [hbody]
      simp
    · intro hcont
      rw [hrem]
      have htab : tableStep "SELECT" (.str s) c.table = .ok c.table := by
        unfold tableStep
        simp [hTab, hcont]
      have hup : pyUpper "SELECT" = "SELECT" := by decide
      have hbody : tunnelBody B c.cache "SELECT" (.str s) c.table d =
          selectExec B c.cache s := by
        unfold tunnelBody dispatchExec
        simp [htab, hup]
      rw [hbody]
      unfold selectExec
      by_cases hch : c.cache
      · simp only [hch, if_true]
        cases hhit : B.cacheHit s with
        | some dd => simp
        | none =>
          cases hrs : B.runSelect s with
          | ok dd => simp
          | error m => simp
      · simp only [hch, if_false]
        cases hrs : B.runSelect s with
        | ok dd => simp
        | error m => simp

/-- Witness for C4: the DELETE of the scenario in the spec with the
matching table ORDERS executes the statement and does not raise the
mismatch error. -/
theorem c4_witness :
    Event.execSql "DELETE FROM ORDERS WHERE ID=1" ∈
        (remote_execute_sql okBackend noFs
          { sql_query := .str "DELETE FROM ORDERS WHERE ID=1", query_type := "DELETE",
            table := "ORDERS" }).1 ∧
      (remote_execute_sql okBackend noFs
          { sql_query := .str "DELETE FROM ORDERS WHERE ID=1", query_type := "DELETE",
            table := "ORDERS" }).2 ≠ .error (.errValue tableMismatchWriteMsg) :=
  ((c4_table_guard okBackend noFs
      { sql_query := .str "DELETE FROM ORDERS WHERE ID=1", query_type := "DELETE",
        table := "ORDERS" }
      "DELETE" .dict "DELETE FROM ORDERS WHERE ID=1" rfl (by decide) (by decide)).1
    (by decide)).2 (by decide)

/-- Counterexample for C4: a call whose `query_type` is Select in mixed
casing is classified as the Select kind (its upper-casing is SELECT and
it dispatches down the read path), carries an explicit table CUSTOMERS
that does not occur in the SQL text, and yet raises no table-mismatch
error: the statement is executed against the backend and a frame is
returned.  The defensive check of the claim does not apply to every
Select-classified call. -/
theorem c4_counterexample :
    classifySqlType (.str "SELECT A FROM ORDERS") "Select" .dict = .ok ("Select", .dict) ∧
    pyUpper "Select" = "SELECT" ∧
    pyContains (pyUpper "SELECT A FROM ORDERS") (pyUpper "CUSTOMERS") = false ∧
    remote_execute_sql okBackend noFs
        { sql_query := .str "SELECT A FROM ORDERS", query_type := "Select",
          table := "CUSTOMERS" } =
      ([.credentialsResolved, .tunnelOpen, .connOpen, .execSql "SELECT A FROM ORDERS",
          .connClose, .tunnelClose], .ok (some df0)) := by
  decide

/-- When the execution block ends in one of the two table-mismatch
errors, it has emitted no event at all: the mismatch is detected before
any connection, execution or insertion. -/
theorem auxBodyMismatch (B : Backend) (ch : Bool) (st : String) (q : SqlArg)
    (tbl : String) (d : DataArg)
    (h : (tunnelBody B ch st q tbl d).2 = .error (.errSyn tableMismatchSelectMsg) ∨
      (tunnelBody B ch st q tbl d).2 = .error (.errValue tableMismatchWriteMsg)) :
    (tunnelBody B ch st q tbl d).1 = [] := by
  revert h
  cases ht : tableStep st q tbl with
  | error e => simp [tunnelBody, ht]
  | ok tbl2 =>
    simp only [tunnelBody, ht]
    unfold dispatchExec selectExec
    repeat' split
    all_goals simp

/-- Counterexample for C5: the DELETE of the scenario in the spec with a
table absent from the statement raises the table-mismatch ValueError,
yet the trace shows that credentials were resolved and the tunnel was
opened (and closed again) before the error: the error is not raised
before network resources are acquired. -/
theorem c5_counterexample :
    remote_execute_sql okBackend noFs
        { sql_query := .str "DELETE FROM ORDERS WHERE ID=1", query_type := "DELETE",
          table := "CUSTOMERS" } =
      ([.credentialsResolved, .tunnelOpen, .tunnelClose],
        .error (.errValue tableMismatchWriteMsg)) ∧
    Event.tunnelOpen ∈
      (remote_execute_sql okBackend noFs
        { sql_query := .str "DELETE FROM ORDERS WHERE ID=1", query_type := "DELETE",
          table := "CUSTOMERS" }).1 ∧
    Event.credentialsResolved ∈
      (remote_execute_sql okBackend noFs
        { sql_query := .str "DELETE FROM ORDERS WHERE ID=1", query_type := "DELETE",
          table := "CUSTOMERS" }).1 := by
  decide

/-- C5 amended: classification errors (the InvalidQuery of line 122) are
raised with an empty trace, before credentials and tunnel; the two
table-mismatch errors are raised only after the tunnel is open, but
still before any statement execution, connection, or insertion reaches
the backend. -/
theorem c5_amended_fail_fast (B : Backend) (fs : String → String) (c : Call) :
    (∀ e, classifySqlType c.sql_query c.query_type c.data = .error e →
        remote_execute_sql B fs c = ([], .error e)) ∧
    (((remote_execute_sql B fs c).2 = .error (.errSyn tableMismatchSelectMsg) ∨
        (remote_execute_sql B fs c).2 = .error (.errValue tableMismatchWriteMsg)) →
      (∀ u, Event.execSql u ∉ (remote_execute_sql B fs c).1) ∧
      Event.connOpen ∉ (remote_execute_sql B fs c).1 ∧
      (∀ dd tb, Event.insertData dd tb ∉ (remote_execute_sql B fs c).1)) := by
  constructor
  · intro e he
    unfold remote_execute_sql
    simp [he]
  · unfold remote_execute_sql
    cases hcl : classifySqlType c.sql_query c.query_type c.data with
    | error e => intro _; simp
    | ok p =>
      obtain ⟨st, d⟩ := p
      cases hp : processSql fs st c.sql_query with
      | error e => intro _; simp [hp]
      | ok q =>
        by_cases ho : B.openTunnel
        · simp only [hp, ho, if_true]
          intro hr
          have hb : (tunnelBody B c.cache st q c.table d).1 = [] :=
            auxBodyMismatch B c.cache st q c.table d (by simpa using hr)
          simp [hb]
        · intro _; simp [hp, ho]

/-- Witness for C5 amended: the empty call yields the classification
error with a completely empty trace. -/
theorem c5_witness :
    remote_execute_sql okBackend noFs { sql_query := .str "" } =
      ([], .error (.errValue (allowedQueriesMsg ""))) :=
  (c5_amended_fail_fast okBackend noFs { sql_query := .str "" }).1
    (.errValue (allowedQueriesMsg "")) (by decide)

/-- Counterexample for C6: the file q.sql holds the text of an UNLOAD
statement, whose classification would be UNLOAD, yet the call classifies
the path string (yielding SELECT) and then executes the file text down
the read path, returning a frame — classification does not operate on
the file contents. -/
theorem c6_counterexample :
    classifySqlType (.str c6content) "" .dict = .ok ("UNLOAD", .dict) ∧
    classifySqlType c6call.sql_query "" .dict = .ok ("SELECT", .dict) ∧
    remote_execute_sql okBackend c6fs c6call =
      ([.credentialsResolved, .tunnelOpen, .connOpen, .execSql c6content,
          .connClose, .tunnelClose], .ok (some df0)) := by
  decide

/-- C6 amended: for a string argument mentioning `.sql` whose
classification (computed on the path string) is not INSERT, the file is
read after classification and its full text is the query body for the
rest of the call: the tunnel-scoped block runs on the file contents
while the type comes from the path. -/
theorem c6_amended_read_after_classify (B : Backend) (fs : String → String)
    (p st : String) (d dd : DataArg) (tbl : String) (ch : Bool)
    (hcl : classifySqlType (.str p) "" d = .ok (st, dd))
    (hst : st ≠ "INSERT")
    (hsql : ((p != "") && pyContains (pyLower p) ".sql") = true)
    (hread : fs p ≠ "")
    (ho : B.openTunnel = true) :
    remote_execute_sql B fs
        { sql_query := .str p, query_type := "", table := tbl, data := d, cache := ch } =
      (Event.credentialsResolved :: Event.tunnelOpen ::
          ((tunnelBody B ch st (.str (fs p)) tbl dd).1 ++ [Event.tunnelClose]),
        (tunnelBody B ch st (.str (fs p)) tbl dd).2) := by
  have hp : processSql fs st (.str p) = .ok (.str (fs p)) := by
    unfold processSql
    simp [hst, hsql, hread]
  unfold remote_execute_sql
  simp [hcl, hp, ho]

/-- Witness for C6 amended at the concrete file system of the
counterexample: the body of the call runs on the file text. -/
theorem c6_witness :
    remote_execute_sql okBackend c6fs c6call =
      (Event.credentialsResolved :: Event.tunnelOpen ::
          ((tunnelBody okBackend false "SELECT" (.str (c6fs "q.sql")) "" .dict).1 ++
            [Event.tunnelClose]),
        (tunnelBody okBackend false "SELECT" (.str (c6fs "q.sql")) "" .dict).2) :=
  c6_amended_read_after_classify okBackend c6fs "q.sql" "SELECT" .dict .dict "" false
    (by decide) (by decide) (by decide) (by decide) rfl

/-- Counterexample for C7: with the same SQL and the same mismatching
table argument, `query_type = SELECT` raises the table-mismatch
SyntaxError while `query_type = select` skips the validation entirely
and executes the read — the call does not behave identically across
casings of `query_type`. -/
theorem c7_counterexample :
    remote_execute_sql okBackend noFs c7callU =
      ([.credentialsResolved, .tunnelOpen, .tunnelClose],
        .error (.errSyn tableMismatchSelectMsg)) ∧
    remote_execute_sql okBackend noFs c7callL =
      ([.credentialsResolved, .tunnelOpen, .connOpen, .execSql c7sql,
          .connClose, .tunnelClose], .ok (some df0)) ∧
    remote_execute_sql okBackend noFs c7callU ≠ remote_execute_sql okBackend noFs c7callL := by
  decide

/-- C7 amended: a non-empty `query_type` is dispatched on its
upper-casing, and a value outside the closed variant is rejected with
the ValueError of line 181; but the table extraction and validation step
of lines 145 to 151 compares `query_type` with SELECT case-sensitively,
so any other casing of select skips that step and the call no longer
depends on the table argument at all. -/
theorem c7_amended_case_handling (B : Backend) (fs : String → String)
    (qt s t t2 : String) (d : DataArg) (ch : Bool) (hq : qt ≠ "") :
    (all_query_types.contains (pyUpper qt) = false →
      pyContains (pyLower s) ".sql" = false →
      B.openTunnel = true →
      (remote_execute_sql B fs
          { sql_query := .str s, query_type := qt, table := t, data := d, cache := ch }).2 =
        .error (.errValue unknownTypeMsg)) ∧
    (pyUpper qt = "SELECT" → qt ≠ "SELECT" →
      remote_execute_sql B fs
          { sql_query := .str s, query_type := qt, table := t, data := d, cache := ch } =
        remote_execute_sql B fs
          { sql_query := .str s, query_type := qt, table := t2, data := d, cache := ch }) := by
  have hcl : classifySqlType (.str s) qt d = .ok (qt, d) := by
    unfold classifySqlType
    simp [hq]
  constructor
  · intro hnot hnosql ho
    have hnotmem : pyUpper qt ∉ all_query_types := by simpa using hnot
    have hSel : pyUpper qt ≠ "SELECT" := fun he => hnotmem (by rw [he]; decide)
    have hIns : pyUpper qt ≠ "INSERT" := fun he => hnotmem (by rw [he]; decide)
    have hqI : qt ≠ "INSERT" := fun he => hIns (by rw [he]; decide)
    have hqS : qt ≠ "SELECT" := fun he => hSel (by rw [he]; decide)
    have hw : writeKindsList.contains (pyUpper qt) = false := by
      by_contra hx
      have hmem : pyUpper qt ∈ writeKindsList := by
        have hx' : writeKindsList.contains (pyUpper qt) = true := by
          revert hx
          cases writeKindsList.contains (pyUpper qt) <;> simp
        simpa using hx'
      apply hnotmem
      simp only [writeKindsList, List.mem_cons, List.not_mem_nil, or_false] at hmem
      rcases hmem with h | h | h | h | h | h <;> rw [h] <;> decide
    have hwn : pyUpper qt ∉ writeKindsList := by simpa using hw
    have hp : processSql fs qt (.str s) = .ok (.str s) := by
      unfold processSql
      simp [hqI, hnosql]
    have hbody : tunnelBody B ch qt (.str s) t d = ([], .error (.errValue unknownTypeMsg)) := by
      unfold tunnelBody tableStep dispatchExec
      simp [hqS, hSel, hIns, hw, hwn]
    unfold remote_execute_sql
    simp [hcl, hp, ho, hbody]
  · intro hup hqS
    unfold remote_execute_sql
    simp only [hcl]
    cases hp2 : processSql fs qt (.str s) with
    | error e => rfl
    | ok q2 =>
      by_cases ho2 : B.openTunnel
      · simp only [hp2, ho2, if_true]
        have hbt : ∀ tx, tunnelBody B ch qt q2 tx d = dispatchExec B ch qt q2 tx d := by
          intro tx
          unfold tunnelBody tableStep
          simp [hqS]
        rw [hbt t, hbt t2]
        cases q2 with
        | df dd2 => simp [dispatchExec, hup]
        | str s2 => simp [dispatchExec, hup]
      · simp [hp2, ho2]

/-- Witness for C7 amended: with the lower-cased select, the call is
insensitive to the table argument (CUSTOMERS against ORDERS make no
difference). -/
theorem c7_witness :
    remote_execute_sql okBackend noFs
        { sql_query := .str c7sql, query_type := "select", table := "CUSTOMERS",
          data := .dict, cache := false } =
      remote_execute_sql okBackend noFs
        { sql_query := .str c7sql, query_type := "select", table := "ORDERS",
          data := .dict, cache := false } :=
  (c7_amended_case_handling okBackend noFs "select" c7sql "CUSTOMERS" "ORDERS" .dict false
      (by decide)).2 (by decide) (by decide)

/-- The split worker never returns an empty list of segments. -/
theorem auxSplitGoFNeNil (s0 : Char) (srest : List Char) (fuel : Nat) (l : List Char) :
    splitGoF s0 srest fuel l ≠ [] := by
  cases l with
  | nil => simp [splitGoF]
  | cons c cs =>
    cases fuel with
    | zero => simp [splitGoF]
    | succ f =>
      unfold splitGoF
      split
      · simp
      · split <;> simp

/-- The first segment of a split on the single space character is the
prefix of the list up to (and excluding) the first space. -/
theorem auxSplitGoFHeadD (f : Nat) (l : List Char) (h : l.length ≤ f) :
    (splitGoF ' ' [] f l).headD [] = l.takeWhile (fun c => c != ' ') := by
  induction f generalizing l with
  | zero =>
    cases l with
    | nil => simp [splitGoF]
    | cons c cs => simp at h
  | succ f ih =>
    cases l with
    | nil => simp [splitGoF]
    | cons c cs =>
      unfold splitGoF
      by_cases hc : c = ' '
      · subst hc
        have hpre : ([' '] : List Char).isPrefixOf (' ' :: cs) = true := by
          simp [List.isPrefixOf]
        simp [hpre]
      · have hpre : ([' '] : List Char).isPrefixOf (c :: cs) = false := by
          simp [List.isPrefixOf]
          exact fun he => absurd he.symm hc
        have hne := auxSplitGoFNeNil ' ' [] f cs
        have hlen : cs.length ≤ f := by
          simp at h
          omega
        have ihc := ih cs hlen
        cases hsp : splitGoF ' ' [] f cs with
        | nil => exact absurd hsp hne
        | cons hd tl =>
          rw [hsp] at ihc
          simp at ihc
          simp [hpre, hsp, ihc, List.takeWhile_cons, hc]

/-- The head of a Python split on one space, at the string level. -/
theorem auxPySplitSpaceHead (seg : String) :
    (pySplit seg " ").headD "" = String.mk (seg.data.takeWhile (fun c => c != ' ')) := by
  unfold pySplit
  have hsep : (" " : String).data = [' '] := rfl
  rw [hsep]
  have hne := auxSplitGoFNeNil ' ' [] seg.data.length seg.data
  have hh := auxSplitGoFHeadD seg.data.length seg.data (le_refl _)
  cases hsp : splitGoF ' ' [] seg.data.length seg.data with
  | nil => exact absurd hsp hne
  | cons hd tl =>
    rw [hsp] at hh
    simp at hh
    simp only [show seg.length = seg.data.length from rfl, hsp]
    simp [hh]

/-- Counterexample for C9: on a query with two spaces after FROM, the
source extraction returns the empty string, while the first
whitespace-delimited token following FROM (the reading of the claim) is
ORDERS. -/
theorem c9_counterexample :
    extractTable "SELECT A FROM  ORDERS" = .ok "" ∧
    claimTableSpec "SELECT A FROM  ORDERS" = some "ORDERS" ∧
    ("" : String) ≠ "ORDERS" := by
  decide

/-- C9 amended: for a Select call with no explicit table, the extracted
name is the prefix, up to the first space character (hence possibly
empty), of the segment lying between the first FROM separator and the
next one in the upper-cased query with newlines replaced by spaces. -/
theorem c9_amended_extraction (s : String) (pre seg : String) (rest : List String)
    (h : pySplit (replaceNl (pyUpper s)) "FROM " = pre :: seg :: rest) :
    extractTable s = .ok (String.mk (seg.data.takeWhile (fun c => c != ' '))) := by
  unfold extractTable
  rw [h]
  simp
  simpa using auxPySplitSpaceHead seg

/-- Witness for C9 amended on a concrete query: the extracted table is
the prefix T2 of the segment after FROM. -/
theorem c9_witness :
    pySplit (replaceNl (pyUpper "SELECT B FROM T2 WHERE C=1")) "FROM " =
      ["SELECT B ", "T2 WHERE C=1"] ∧
    extractTable "SELECT B FROM T2 WHERE C=1" =
      .ok (String.mk (("T2 WHERE C=1" : String).data.takeWhile (fun c => c != ' '))) :=
  ⟨by decide,
    c9_amended_extraction "SELECT B FROM T2 WHERE C=1" "SELECT B " "T2 WHERE C=1" []
      (by decide)⟩
